import Mathlib

/-!
Formal model of the WeatherApp consumer core (alert rule registry, alert
evaluation engine, message dispatch loop, test-injection endpoint),
translated from the Go sources:

  - Consumer/alerts/evaluator.go  (rules, evaluation)
  - Consumer kafka consumer        (dispatch loop)
  - Consumer/api/server.go         (test-temperature endpoint)

Conventions of the embedding:
  - Go float32/float64 measurement fields are modelled as exact rationals;
    Go int fields are modelled as Int.
  - The wall clock read by time.Now() when an alert is generated is made
    explicit: every evaluation function receives the current clock reading
    as an extra parameter `now : Int` and stamps it into the alerts.
  - The Go map from zip code to rule is modelled as an association list
    where insertion conses at the front and lookup takes the first match,
    which gives the same last-write-wins semantics.
  - String rendering of numbers inside log-style description texts
    (fmt.Sprintf formatting) is abstracted by toString; no claim depends
    on the rendered digits.
  - Fields of the JSON payload records that the consumer core never reads
    (coordinates, visibility, sys blocks, and so on) are omitted.
-/

/-- One entry of the `weather` condition array of an OpenWeather payload
(models.OpenWeatherCondition). -/
structure OpenWeatherCondition where
  id : Int
  main : String
  description : String
  icon : String
deriving DecidableEq

/-- The `main` measurement block shared by current and forecast payloads. -/
structure WeatherMain where
  temp : ℚ
  feelsLike : ℚ
  tempMin : ℚ
  tempMax : ℚ
  pressure : Int
  humidity : Int
deriving DecidableEq

/-- The `wind` block of an OpenWeather payload. -/
structure WindInfo where
  speed : ℚ
  deg : Int
deriving DecidableEq

/-- A current-weather sample (models.OpenWeatherResponse restricted to the
fields the consumer core reads). -/
structure OpenWeatherResponse where
  weather : List OpenWeatherCondition
  main : WeatherMain
  wind : WindInfo
deriving DecidableEq

/-- One forecast timestep (models.ForecastItem restricted to the fields the
consumer core reads). -/
structure ForecastItem where
  dt : Int
  main : WeatherMain
  weather : List OpenWeatherCondition
  wind : WindInfo
deriving DecidableEq

/-- Per-location alert thresholds (alerts.AlertRule). -/
structure AlertRule where
  zipCode : String
  city : String
  alertTemp : ℚ
  highTempAlert : ℚ
  lowTempAlert : ℚ
  windAlert : ℚ
  humidityAlert : Int
  pressureAlert : Int
deriving DecidableEq

/-- A triggered alert (alerts.WeatherAlert).  The Timestamp field records
the clock reading at generation time. -/
structure WeatherAlert where
  type : String
  severity : String
  message : String
  city : String
  zipCode : String
  value : ℚ
  threshold : ℚ
  timestamp : Int
  description : String
deriving DecidableEq

/-- The alert rule registry (alerts.AlertEvaluator): a map from zip code to
rule, modelled as an association list with most recent insertion first. -/
structure AlertEvaluator where
  alertRules : List (String × AlertRule)
deriving DecidableEq

/-- alerts.NewAlertEvaluator: empty registry. -/
def NewAlertEvaluator : AlertEvaluator := { alertRules := [] }

/-- The rule value built inside alerts.AddAlertRule: high threshold is the
custom threshold plus 10, low threshold is the custom threshold minus 5,
pressure threshold is the fixed 1000 hPa.  The two sums are float32
additions in Go; this definition is their exact-arithmetic abstraction, and
mkAlertRuleFloat32 below models the float32 rounding of the sums. -/
def mkAlertRule (zipCode city : String) (alertTemp alertWind : ℚ)
    (alertHumidity : Int) : AlertRule :=
  { zipCode := zipCode
    city := city
    alertTemp := alertTemp
    highTempAlert := alertTemp + 10
    lowTempAlert := alertTemp - 5
    windAlert := alertWind
    humidityAlert := alertHumidity
    pressureAlert := 1000 }

/-- alerts.AddAlertRule: build the rule and store it under its zip code
(overwriting any earlier entry: lookup below takes the first match). -/
def AlertEvaluator.AddAlertRule (ae : AlertEvaluator) (zipCode city : String)
    (alertTemp alertWind : ℚ) (alertHumidity : Int) : AlertEvaluator :=
  { alertRules := (zipCode, mkAlertRule zipCode city alertTemp alertWind alertHumidity)
      :: ae.alertRules }

/-- Lookup in the registry map (the Go expression ae.alertRules[zipCode]). -/
def findRule : List (String × AlertRule) → String → Option AlertRule
  | [], _ => none
  | (k, r) :: rest, zipCode => if k = zipCode then some r else findRule rest zipCode

/-- The custom-threshold alert literal of evaluateTemperatureAlerts. -/
def mkCustomTempAlert (w : OpenWeatherResponse) (rule : AlertRule) (now : Int) :
    WeatherAlert :=
  { type := "temperature"
    severity := "warning"
    message := "Temperature reached custom threshold"
    city := rule.city
    zipCode := rule.zipCode
    value := w.main.temp
    threshold := rule.alertTemp
    timestamp := now
    description := "Temperature in " ++ rule.city ++ " is " ++ toString w.main.temp
      ++ "°C, which has reached the custom threshold of "
      ++ toString rule.alertTemp ++ "°C" }

/-- The high-temperature alert literal of evaluateTemperatureAlerts. -/
def mkHighTempAlert (w : OpenWeatherResponse) (rule : AlertRule) (now : Int) :
    WeatherAlert :=
  { type := "high_temperature"
    severity := "critical"
    message := "High temperature detected"
    city := rule.city
    zipCode := rule.zipCode
    value := w.main.temp
    threshold := rule.highTempAlert
    timestamp := now
    description := "Temperature in " ++ rule.city ++ " is " ++ toString w.main.temp
      ++ "°C, which is above the high temperature threshold of "
      ++ toString rule.highTempAlert ++ "°C" }

/-- The low-temperature alert literal of evaluateTemperatureAlerts. -/
def mkLowTempAlert (w : OpenWeatherResponse) (rule : AlertRule) (now : Int) :
    WeatherAlert :=
  { type := "low_temperature"
    severity := "warning"
    message := "Low temperature detected"
    city := rule.city
    zipCode := rule.zipCode
    value := w.main.temp
    threshold := rule.lowTempAlert
    timestamp := now
    description := "Temperature in " ++ rule.city ++ " is " ++ toString w.main.temp
      ++ "°C, which is below the low temperature threshold of "
      ++ toString rule.lowTempAlert ++ "°C" }

/-- The high-wind alert literal of evaluateWindAlerts. -/
def mkHighWindAlert (w : OpenWeatherResponse) (rule : AlertRule) (now : Int) :
    WeatherAlert :=
  { type := "high_wind"
    severity := "warning"
    message := "High wind speed detected"
    city := rule.city
    zipCode := rule.zipCode
    value := w.wind.speed
    threshold := rule.windAlert
    timestamp := now
    description := "Wind speed in " ++ rule.city ++ " is " ++ toString w.wind.speed
      ++ " m/s, which is above the threshold of " ++ toString rule.windAlert
      ++ " m/s" }

/-- The high-humidity alert literal of evaluateHumidityAlerts. -/
def mkHighHumidityAlert (w : OpenWeatherResponse) (rule : AlertRule) (now : Int) :
    WeatherAlert :=
  { type := "high_humidity"
    severity := "warning"
    message := "High humidity detected"
    city := rule.city
    zipCode := rule.zipCode
    value := (w.main.humidity : ℚ)
    threshold := (rule.humidityAlert : ℚ)
    timestamp := now
    description := "Humidity in " ++ rule.city ++ " is " ++ toString w.main.humidity
      ++ "%, which is above the threshold of " ++ toString rule.humidityAlert
      ++ "%" }

/-- The low-pressure alert literal of evaluatePressureAlerts. -/
def mkLowPressureAlert (w : OpenWeatherResponse) (rule : AlertRule) (now : Int) :
    WeatherAlert :=
  { type := "low_pressure"
    severity := "warning"
    message := "Low atmospheric pressure detected"
    city := rule.city
    zipCode := rule.zipCode
    value := (w.main.pressure : ℚ)
    threshold := (rule.pressureAlert : ℚ)
    timestamp := now
    description := "Atmospheric pressure in " ++ rule.city ++ " is "
      ++ toString w.main.pressure ++ " hPa, which is below the threshold of "
      ++ toString rule.pressureAlert ++ " hPa" }

/-- The weather-condition alert literal of evaluateWeatherConditionAlerts. -/
def mkConditionAlert (cond : OpenWeatherCondition) (severity : String)
    (rule : AlertRule) (now : Int) : WeatherAlert :=
  { type := "weather_condition"
    severity := severity
    message := "Severe weather condition: " ++ cond.main
    city := rule.city
    zipCode := rule.zipCode
    value := 0
    threshold := 0
    timestamp := now
    description := "Weather condition in " ++ rule.city ++ ": " ++ cond.main
      ++ " (" ++ cond.description ++ ")" }

/-- evaluateTemperatureAlerts: custom-threshold, then high-temperature, then
low-temperature, each appended when its inclusive comparison holds. -/
def evaluateTemperatureAlerts (w : OpenWeatherResponse) (rule : AlertRule)
    (now : Int) : List WeatherAlert :=
  (if w.main.temp ≥ rule.alertTemp then [mkCustomTempAlert w rule now] else [])
    ++ (if w.main.temp ≥ rule.highTempAlert then [mkHighTempAlert w rule now] else [])
    ++ (if w.main.temp ≤ rule.lowTempAlert then [mkLowTempAlert w rule now] else [])

/-- evaluateWindAlerts. -/
def evaluateWindAlerts (w : OpenWeatherResponse) (rule : AlertRule)
    (now : Int) : List WeatherAlert :=
  if w.wind.speed ≥ rule.windAlert then [mkHighWindAlert w rule now] else []

/-- evaluateHumidityAlerts. -/
def evaluateHumidityAlerts (w : OpenWeatherResponse) (rule : AlertRule)
    (now : Int) : List WeatherAlert :=
  if w.main.humidity ≥ rule.humidityAlert then [mkHighHumidityAlert w rule now] else []

/-- evaluatePressureAlerts. -/
def evaluatePressureAlerts (w : OpenWeatherResponse) (rule : AlertRule)
    (now : Int) : List WeatherAlert :=
  if w.main.pressure ≤ rule.pressureAlert then [mkLowPressureAlert w rule now] else []

/-- The severeConditions map of evaluateWeatherConditionAlerts, as a lookup
from condition label to severity. -/
def severeConditionSeverity (condition : String) : Option String :=
  if condition = "Thunderstorm" then some "critical"
  else if condition = "Snow" then some "warning"
  else if condition = "Rain" then some "warning"
  else if condition = "Drizzle" then some "info"
  else none

/-- evaluateWeatherConditionAlerts: looks at the first entry of the weather
condition array, if any, and alerts when its label is in the severe set. -/
def evaluateWeatherConditionAlerts (w : OpenWeatherResponse) (rule : AlertRule)
    (now : Int) : List WeatherAlert :=
  match w.weather with
  | [] => []
  | cond :: _ =>
    match severeConditionSeverity cond.main with
    | some severity => [mkConditionAlert cond severity rule now]
    | none => []

/-- alerts.EvaluateCurrentWeather: look up the rule for the zip code; when
absent return no alerts, otherwise run the five check families in order. -/
def AlertEvaluator.EvaluateCurrentWeather (ae : AlertEvaluator)
    (w : OpenWeatherResponse) (zipCode : String) (now : Int) : List WeatherAlert :=
  match findRule ae.alertRules zipCode with
  | none => []
  | some rule =>
    evaluateTemperatureAlerts w rule now
      ++ evaluateWindAlerts w rule now
      ++ evaluateHumidityAlerts w rule now
      ++ evaluatePressureAlerts w rule now
      ++ evaluateWeatherConditionAlerts w rule now

/-- The OpenWeatherResponse value built inside alerts.EvaluateHourlyWeather:
only temperature, pressure, humidity, wind speed and the condition array are
copied from the forecast item; every other field is the Go zero value. -/
def hourlyToOpenWeather (hourly : ForecastItem) : OpenWeatherResponse :=
  { weather := hourly.weather
    main :=
      { temp := hourly.main.temp
        feelsLike := 0
        tempMin := 0
        tempMax := 0
        pressure := hourly.main.pressure
        humidity := hourly.main.humidity }
    wind := { speed := hourly.wind.speed, deg := 0 } }

/-- alerts.EvaluateHourlyWeather: return no alerts when the zip code has no
rule, otherwise convert the forecast item and evaluate it as current
weather. -/
def AlertEvaluator.EvaluateHourlyWeather (ae : AlertEvaluator)
    (hourly : ForecastItem) (zipCode : String) (now : Int) : List WeatherAlert :=
  match findRule ae.alertRules zipCode with
  | none => []
  | some _ => ae.EvaluateCurrentWeather (hourlyToOpenWeather hourly) zipCode now

/-- Daily weather summary payload (kafka.DailyWeatherData). -/
structure DailyWeatherData where
  day : Int
  date : String
  tempMin : ℚ
  tempMax : ℚ
  tempAvg : ℚ
  humidity : Int
  windSpeed : ℚ
  description : String
  icon : String
deriving DecidableEq

/-- Forecast series payload (models.OpenWeatherForecastResponse restricted
to the fields the consumer reads). -/
structure OpenWeatherForecastResponse where
  list : List ForecastItem
deriving DecidableEq

/-- A decoded stream envelope (kafka.WeatherMessage). -/
structure WeatherMessage where
  timestamp : Int
  zipCode : String
  city : String
  country : String
  current : Option OpenWeatherResponse
  forecast : Option OpenWeatherForecastResponse
  hourly : Option ForecastItem
  daily : Option DailyWeatherData
  messageType : String
deriving DecidableEq

/-- One update pushed to the metrics sink.  updateCurrent corresponds to
UpdateCurrentWeatherMetrics, updateForecast to UpdateForecastWeatherMetrics,
updateAlert to UpdateAlertMetrics, setTestTemperature to
SetTestTemperature. -/
inductive MetricEffect where
  | updateCurrent (city : String) (temp humidity windSpeed pressure : ℚ)
  | updateForecast (city : String) (temp humidity windSpeed pressure : ℚ) (dt : Int)
  | updateAlert (city alertType severity : String) (value threshold : ℚ)
  | setTestTemperature (city : String) (temperature : ℚ)
deriving DecidableEq

/-- Whether a metric update carries an alert (an UpdateAlertMetrics call). -/
def MetricEffect.isAlertUpdate : MetricEffect → Bool
  | .updateAlert _ _ _ _ _ => true
  | _ => false

/-- kafka.processAlerts: forward every produced alert to the metrics sink. -/
def processAlerts (weatherAlerts : List WeatherAlert) : List MetricEffect :=
  weatherAlerts.map fun alert =>
    MetricEffect.updateAlert alert.city alert.type alert.severity alert.value alert.threshold

/-- kafka.processCurrentWeather: nil payload is an error with no effects;
otherwise update the observation metrics, evaluate, and forward alerts. -/
def processCurrentWeather (ae : AlertEvaluator) (msg : WeatherMessage)
    (now : Int) : Except String (List MetricEffect) :=
  match msg.current with
  | none => .error "current weather data is nil"
  | some cur =>
    .ok ([MetricEffect.updateCurrent msg.city cur.main.temp (cur.main.humidity : ℚ)
            cur.wind.speed (cur.main.pressure : ℚ)]
          ++ processAlerts (ae.EvaluateCurrentWeather cur msg.zipCode now))

/-- kafka.processForecastWeather: fan every series element out to a forecast
metric update; no evaluation on this path. -/
def processForecastWeather (msg : WeatherMessage) :
    Except String (List MetricEffect) :=
  match msg.forecast with
  | none => .error "forecast weather data is nil"
  | some fc =>
    .ok (fc.list.map fun item =>
      MetricEffect.updateForecast msg.city item.main.temp (item.main.humidity : ℚ)
        item.wind.speed (item.main.pressure : ℚ) item.dt)

/-- kafka.processHourlyWeather: update the forecast metrics for the single
timestep, evaluate it, and forward alerts. -/
def processHourlyWeather (ae : AlertEvaluator) (msg : WeatherMessage)
    (now : Int) : Except String (List MetricEffect) :=
  match msg.hourly with
  | none => .error "hourly weather data is nil"
  | some h =>
    .ok ([MetricEffect.updateForecast msg.city h.main.temp (h.main.humidity : ℚ)
            h.wind.speed (h.main.pressure : ℚ) h.dt]
          ++ processAlerts (ae.EvaluateHourlyWeather h msg.zipCode now))

/-- kafka.processDailyWeather: update the current metrics using the daily
average temperature and the fixed default pressure; no evaluation. -/
def processDailyWeather (msg : WeatherMessage) :
    Except String (List MetricEffect) :=
  match msg.daily with
  | none => .error "daily weather data is nil"
  | some d =>
    .ok [MetricEffect.updateCurrent msg.city d.tempAvg (d.humidity : ℚ)
          d.windSpeed (101325 / 100 : ℚ)]

/-- kafka.processMessage: a raw envelope either fails JSON decoding (none)
or yields a WeatherMessage that is routed by its message_type tag; an
unrecognized tag is an error with no effects. -/
def processMessage (ae : AlertEvaluator) (raw : Option WeatherMessage)
    (now : Int) : Except String (List MetricEffect) :=
  match raw with
  | none => .error "failed to unmarshal message"
  | some m =>
    if m.messageType = "current" then processCurrentWeather ae m now
    else if m.messageType = "forecast" then processForecastWeather m
    else if m.messageType = "hourly" then processHourlyWeather ae m now
    else if m.messageType = "daily" then processDailyWeather m
    else .error ("unknown message type: " ++ m.messageType)

/-- The metric updates a processing result contributes: a processing error
is only logged, so it contributes none. -/
def effectsOfResult : Except String (List MetricEffect) → List MetricEffect
  | .error _ => []
  | .ok effs => effs

/-- kafka.StartConsuming, run over a finite prefix of the stream.  Each
entry of the stream is the result of one blocking receive: either a
transport error or a raw envelope.  A receive error is logged and the loop
continues; a processing error is logged and the loop continues; effects of
successfully processed envelopes are emitted in order. -/
def StartConsuming (ae : AlertEvaluator)
    (stream : List (Except String (Option WeatherMessage))) (now : Int) :
    List MetricEffect :=
  match stream with
  | [] => []
  | .error _ :: rest => StartConsuming ae rest now
  | .ok raw :: rest =>
    effectsOfResult (processMessage ae raw now) ++ StartConsuming ae rest now

/-- Decoded body of a POST to /test/temperature (the anonymous request
struct of api.setTestTemperature). -/
structure TestTemperatureRequest where
  city : String
  temperature : ℚ
deriving DecidableEq

/-- Observable outcome of one call of the api.setTestTemperature handler:
HTTP status, response fields, and the metric updates performed. -/
structure HandlerResult where
  status : Nat
  success : Bool
  message : String
  errorText : String
  echoCity : Option String
  echoTemperature : Option ℚ
  effects : List MetricEffect
deriving DecidableEq

/-- api.setTestTemperature: a body that fails to decode (none) gives 400
with no effect; an empty city gives 400 with no effect; otherwise the test
temperature is written directly to the metrics sink and the applied values
are echoed with status 200. -/
def setTestTemperatureHandler (body : Option TestTemperatureRequest) :
    HandlerResult :=
  match body with
  | none =>
    { status := 400, success := false, message := "", errorText := "Invalid request body"
      echoCity := none, echoTemperature := none, effects := [] }
  | some req =>
    if req.city = "" then
      { status := 400, success := false, message := "", errorText := "city is required"
        echoCity := none, echoTemperature := none, effects := [] }
    else
      { status := 200, success := true
        message := "Test temperature set for " ++ req.city ++ ": "
          ++ toString req.temperature ++ "°C"
        errorText := ""
        echoCity := some req.city
        echoTemperature := some req.temperature
        effects := [MetricEffect.setTestTemperature req.city req.temperature] }

/-- Registry fixture: the single rule of the end-to-end scenarios of the
spec, zip 12601 with custom threshold 10, wind 15, humidity 85. -/
def evalFixture : AlertEvaluator :=
  NewAlertEvaluator.AddAlertRule "12601" "Poughkeepsie" 10 15 85

/-- The rule stored by the fixture. -/
def ruleFixture : AlertRule := mkAlertRule "12601" "Poughkeepsie" 10 15 85

/-- Sample fixture: a cold, calm reading (temperature 0). -/
def coldSample : OpenWeatherResponse :=
  { weather := []
    main := { temp := 0, feelsLike := 0, tempMin := 0, tempMax := 0
              pressure := 1001, humidity := 40 }
    wind := { speed := 5, deg := 0 } }

/-- Sample fixture: temperature exactly at the custom threshold 10. -/
def boundarySample : OpenWeatherResponse :=
  { weather := []
    main := { temp := 10, feelsLike := 10, tempMin := 9, tempMax := 11
              pressure := 1001, humidity := 40 }
    wind := { speed := 5, deg := 0 } }

/-- Sample fixture: the stormy end-to-end reading of the spec, temperature
21, wind 20, humidity 90, pressure above 1000, condition Thunderstorm. -/
def stormSample : OpenWeatherResponse :=
  { weather := [{ id := 200, main := "Thunderstorm"
                  description := "thunderstorm with rain", icon := "11d" }]
    main := { temp := 21, feelsLike := 22, tempMin := 20, tempMax := 23
              pressure := 1005, humidity := 90 }
    wind := { speed := 20, deg := 180 } }

/-- Round a rational to the nearest integer, ties to the even integer (the
IEEE 754 default rounding direction). -/
def roundNearestEven (x : ℚ) : ℤ :=
  if x - ⌊x⌋ < 1/2 then ⌊x⌋
  else if 1/2 < x - ⌊x⌋ then ⌊x⌋ + 1
  else if ⌊x⌋ % 2 = 0 then ⌊x⌋ else ⌊x⌋ + 1

/-- Binary32 (Go float32) rounding: the nearest single-precision value of a
real number, ties to even.  A nonzero value is scaled to a 24-bit
significand at the exponent of its binade, with the exponent clamped below
at -126 for the subnormal range.  Weather data never reaches the finite
float32 limit, so overflow to infinity is not modelled. -/
def fl32 (q : ℚ) : ℚ :=
  if q = 0 then 0
  else
    (roundNearestEven (q / 2 ^ (max (Int.log 2 |q|) (-126) - 23)) : ℚ) *
      2 ^ (max (Int.log 2 |q|) (-126) - 23)

/-- The float32-faithful threshold derivation of alerts.AddAlertRule: in Go
the sums alertTemp + 10 and alertTemp - 5 are computed in float32
arithmetic, so each result is rounded to the nearest representable value.
mkAlertRule above is the exact-arithmetic abstraction of this construction;
the two agree whenever both sums are representable in float32. -/
def mkAlertRuleFloat32 (zipCode city : String) (alertTemp alertWind : ℚ)
    (alertHumidity : Int) : AlertRule :=
  { zipCode := zipCode
    city := city
    alertTemp := alertTemp
    highTempAlert := fl32 (alertTemp + 10)
    lowTempAlert := fl32 (alertTemp - 5)
    windAlert := alertWind
    humidityAlert := alertHumidity
    pressureAlert := 1000 }

/-- Membership in a conditional singleton forces equality with the element. -/
theorem mem_ite_singleton {α : Type} {c : Prop} [Decidable c] {a x : α}
    (h : a ∈ if c then [x] else ([] : List α)) : a = x := by
  split at h
  · simpa using h
  · simp at h

/-- Characterization of EvaluateCurrentWeather when a rule is registered:
the output is the concatenation of the seven conditional alert slots in the
fixed taxonomy order, every comparison inclusive. -/
theorem evaluateCurrentWeather_char (ae : AlertEvaluator)
    (w : OpenWeatherResponse) (zipCode : String) (rule : AlertRule) (now : Int)
    (hfind : findRule ae.alertRules zipCode = some rule) :
    ae.EvaluateCurrentWeather w zipCode now =
      (if w.main.temp ≥ rule.alertTemp then [mkCustomTempAlert w rule now] else [])
      ++ ((if w.main.temp ≥ rule.highTempAlert then [mkHighTempAlert w rule now] else [])
      ++ ((if w.main.temp ≤ rule.lowTempAlert then [mkLowTempAlert w rule now] else [])
      ++ ((if w.wind.speed ≥ rule.windAlert then [mkHighWindAlert w rule now] else [])
      ++ ((if w.main.humidity ≥ rule.humidityAlert then [mkHighHumidityAlert w rule now] else [])
      ++ ((if w.main.pressure ≤ rule.pressureAlert then [mkLowPressureAlert w rule now] else [])
      ++ evaluateWeatherConditionAlerts w rule now))))) := by
  simp [AlertEvaluator.EvaluateCurrentWeather, hfind, evaluateTemperatureAlerts,
    evaluateWindAlerts, evaluateHumidityAlerts, evaluatePressureAlerts,
    List.append_assoc]

/-- Every alert produced by the condition check family has type
weather_condition. -/
theorem mem_conditionAlerts_type {w : OpenWeatherResponse} {rule : AlertRule}
    {now : Int} {a : WeatherAlert}
    (h : a ∈ evaluateWeatherConditionAlerts w rule now) :
    a.type = "weather_condition" := by
  unfold evaluateWeatherConditionAlerts at h
  split at h
  · simp at h
  · split at h
    · simp at h
      subst h
      rfl
    · simp at h

/-- Replace the generation timestamp of an alert. -/
def retime (n : Int) (a : WeatherAlert) : WeatherAlert := { a with timestamp := n }

theorem tempAlerts_retime (w : OpenWeatherResponse) (rule : AlertRule)
    (n m : Int) : evaluateTemperatureAlerts w rule n =
      (evaluateTemperatureAlerts w rule m).map (retime n) := by
  unfold evaluateTemperatureAlerts
  split_ifs <;> rfl

theorem windAlerts_retime (w : OpenWeatherResponse) (rule : AlertRule)
    (n m : Int) : evaluateWindAlerts w rule n =
      (evaluateWindAlerts w rule m).map (retime n) := by
  unfold evaluateWindAlerts
  split_ifs <;> rfl

theorem humidityAlerts_retime (w : OpenWeatherResponse) (rule : AlertRule)
    (n m : Int) : evaluateHumidityAlerts w rule n =
      (evaluateHumidityAlerts w rule m).map (retime n) := by
  unfold evaluateHumidityAlerts
  split_ifs <;> rfl

theorem pressureAlerts_retime (w : OpenWeatherResponse) (rule : AlertRule)
    (n m : Int) : evaluatePressureAlerts w rule n =
      (evaluatePressureAlerts w rule m).map (retime n) := by
  unfold evaluatePressureAlerts
  split_ifs <;> rfl

theorem conditionAlerts_retime (w : OpenWeatherResponse) (rule : AlertRule)
    (n m : Int) : evaluateWeatherConditionAlerts w rule n =
      (evaluateWeatherConditionAlerts w rule m).map (retime n) := by
  unfold evaluateWeatherConditionAlerts
  split
  · rfl
  · split <;> rfl

/-- The evaluation at clock reading n is the evaluation at any other clock
reading with every timestamp replaced by n: the clock only flows into the
Timestamp field. -/
theorem evaluateCurrentWeather_retime (ae : AlertEvaluator)
    (w : OpenWeatherResponse) (zipCode : String) (n m : Int) :
    ae.EvaluateCurrentWeather w zipCode n =
      (ae.EvaluateCurrentWeather w zipCode m).map (retime n) := by
  unfold AlertEvaluator.EvaluateCurrentWeather
  cases hfind : findRule ae.alertRules zipCode with
  | none => rfl
  | some rule =>
    simp only [List.map_append]
    rw [tempAlerts_retime w rule n m, windAlerts_retime w rule n m,
      humidityAlerts_retime w rule n m, pressureAlerts_retime w rule n m,
      conditionAlerts_retime w rule n m]

theorem map_retime_timestamp (l : List WeatherAlert) (n : Int) :
    (l.map (retime n)).map WeatherAlert.timestamp = List.replicate l.length n := by
  induction l with
  | nil => rfl
  | cons a rest ih => simp [retime, List.replicate, ih]

/-- EvaluateHourlyWeather agrees with EvaluateCurrentWeather on the
converted sample (the extra registry check of the hourly path is redundant
because the current path repeats it). -/
theorem hourly_eq_current (ae : AlertEvaluator) (hourly : ForecastItem)
    (zipCode : String) (now : Int) :
    ae.EvaluateHourlyWeather hourly zipCode now =
      ae.EvaluateCurrentWeather (hourlyToOpenWeather hourly) zipCode now := by
  unfold AlertEvaluator.EvaluateHourlyWeather AlertEvaluator.EvaluateCurrentWeather
  cases hfind : findRule ae.alertRules zipCode <;> simp [hfind]

/-- Hourly fixture matching stormSample on the evaluated fields. -/
def hourlyFixture : ForecastItem :=
  { dt := 1700000000
    main := { temp := 21, feelsLike := 22, tempMin := 20, tempMax := 23
              pressure := 1005, humidity := 90 }
    weather := [{ id := 200, main := "Thunderstorm"
                  description := "thunderstorm with rain", icon := "11d" }]
    wind := { speed := 20, deg := 180 } }

/-- Same evaluated fields as hourlyFixture, different timestamp, feels-like
and min/max temperatures. -/
def hourlyFixtureAlt : ForecastItem :=
  { dt := 1234
    main := { temp := 21, feelsLike := 5, tempMin := 1, tempMax := 2
              pressure := 1005, humidity := 90 }
    weather := [{ id := 200, main := "Thunderstorm"
                  description := "thunderstorm with rain", icon := "11d" }]
    wind := { speed := 20, deg := 180 } }

/-- Claim C4: for every sample and registered rule, evaluation runs all
seven checks independently and returns the triggered alerts in the fixed
order custom-threshold, high-temperature, low-temperature, high-wind,
high-humidity, low-pressure, condition, with every threshold comparison
inclusive; in particular a temperature exactly at the custom threshold
triggers the custom-threshold alert. -/
theorem evaluate_fixed_order_inclusive (ae : AlertEvaluator)
    (w : OpenWeatherResponse) (zipCode : String) (rule : AlertRule) (now : Int)
    (hfind : findRule ae.alertRules zipCode = some rule) :
    (ae.EvaluateCurrentWeather w zipCode now =
      (if w.main.temp ≥ rule.alertTemp then [mkCustomTempAlert w rule now] else [])
      ++ ((if w.main.temp ≥ rule.highTempAlert then [mkHighTempAlert w rule now] else [])
      ++ ((if w.main.temp ≤ rule.lowTempAlert then [mkLowTempAlert w rule now] else [])
      ++ ((if w.wind.speed ≥ rule.windAlert then [mkHighWindAlert w rule now] else [])
      ++ ((if w.main.humidity ≥ rule.humidityAlert then [mkHighHumidityAlert w rule now] else [])
      ++ ((if w.main.pressure ≤ rule.pressureAlert then [mkLowPressureAlert w rule now] else [])
      ++ evaluateWeatherConditionAlerts w rule now))))))
    ∧ (w.main.temp = rule.alertTemp →
        mkCustomTempAlert w rule now ∈ ae.EvaluateCurrentWeather w zipCode now) := by
  refine ⟨evaluateCurrentWeather_char ae w zipCode rule now hfind, fun ht => ?_⟩
  rw [evaluateCurrentWeather_char ae w zipCode rule now hfind]
  have hge : w.main.temp ≥ rule.alertTemp := ht.ge
  simp [hge]

/-- Witness for C4 at the boundary sample with temperature exactly 10. -/
theorem evaluate_fixed_order_inclusive_witness :
    mkCustomTempAlert boundarySample ruleFixture 0 ∈
      evalFixture.EvaluateCurrentWeather boundarySample "12601" 0 :=
  (evaluate_fixed_order_inclusive evalFixture boundarySample "12601" ruleFixture 0
      rfl).2 (by norm_num [boundarySample, ruleFixture, mkAlertRule])

/-- Claim C5: a sample for a zip code with no registered rule yields the
empty alert sequence on both the current-weather path and the hourly
path. -/
theorem registry_miss_no_alerts (ae : AlertEvaluator) (zipCode : String)
    (w : OpenWeatherResponse) (hourly : ForecastItem) (now : Int)
    (hmiss : findRule ae.alertRules zipCode = none) :
    ae.EvaluateCurrentWeather w zipCode now = [] ∧
    ae.EvaluateHourlyWeather hourly zipCode now = [] := by
  unfold AlertEvaluator.EvaluateCurrentWeather AlertEvaluator.EvaluateHourlyWeather
  rw [hmiss]
  exact ⟨rfl, rfl⟩

/-- Witness for C5 at an unregistered zip code. -/
theorem registry_miss_no_alerts_witness :
    evalFixture.EvaluateCurrentWeather coldSample "99999" 0 = [] ∧
    evalFixture.EvaluateHourlyWeather hourlyFixture "99999" 0 = [] :=
  registry_miss_no_alerts evalFixture "99999" coldSample hourlyFixture 0 (by decide)

/-- Claim C10: evaluating an hourly forecast point equals evaluating the
current-weather sample built from only its temperature, pressure, humidity,
wind speed and condition array; the remaining fields of the point never
affect the produced alerts. -/
theorem hourly_refines_current (ae : AlertEvaluator) (hourly : ForecastItem)
    (zipCode : String) (now : Int) :
    ae.EvaluateHourlyWeather hourly zipCode now =
      ae.EvaluateCurrentWeather (hourlyToOpenWeather hourly) zipCode now
    ∧ ∀ hourly2 : ForecastItem,
        hourly2.main.temp = hourly.main.temp →
        hourly2.main.pressure = hourly.main.pressure →
        hourly2.main.humidity = hourly.main.humidity →
        hourly2.wind.speed = hourly.wind.speed →
        hourly2.weather = hourly.weather →
        ae.EvaluateHourlyWeather hourly2 zipCode now =
          ae.EvaluateHourlyWeather hourly zipCode now := by
  refine ⟨hourly_eq_current ae hourly zipCode now, fun h2 e1 e2 e3 e4 e5 => ?_⟩
  rw [hourly_eq_current, hourly_eq_current]
  have hconv : hourlyToOpenWeather h2 = hourlyToOpenWeather hourly := by
    simp [hourlyToOpenWeather, e1, e2, e3, e4, e5]
  rw [hconv]

/-- Witness for C10: two hourly points differing only in timestamp,
feels-like and min/max temperature evaluate identically. -/
theorem hourly_refines_current_witness :
    evalFixture.EvaluateHourlyWeather hourlyFixtureAlt "12601" 0 =
      evalFixture.EvaluateHourlyWeather hourlyFixture "12601" 0 :=
  (hourly_refines_current evalFixture hourlyFixture "12601" 0).2 hourlyFixtureAlt
    rfl rfl rfl rfl rfl

/-- Claim C1 counterexample: with the rule of custom threshold 10, a sample
at temperature 0 is strictly below the custom threshold yet evaluation
produces a low-temperature alert (0 is at most the derived low threshold
5), so the claim that no low-temperature alert is produced is false. -/
theorem low_alert_below_custom_counterexample :
    coldSample.main.temp < ruleFixture.alertTemp ∧
    (evalFixture.EvaluateCurrentWeather coldSample "12601" 0).map WeatherAlert.type
      = ["low_temperature"] := by
  constructor
  · norm_num [coldSample, ruleFixture, mkAlertRule]
  · norm_num [evalFixture, NewAlertEvaluator, AlertEvaluator.AddAlertRule,
      AlertEvaluator.EvaluateCurrentWeather, findRule, mkAlertRule, coldSample,
      evaluateTemperatureAlerts, evaluateWindAlerts, evaluateHumidityAlerts,
      evaluatePressureAlerts, evaluateWeatherConditionAlerts, mkLowTempAlert]

/-- Claim C1 as amended: below the custom threshold no custom-threshold and
no high-temperature alert is produced; a low-temperature alert still is
whenever the temperature is at most the custom threshold minus 5. -/
theorem below_custom_threshold_alerts (ae : AlertEvaluator)
    (zipCode city : String) (alertTemp alertWind : ℚ) (alertHumidity : Int)
    (w : OpenWeatherResponse) (now : Int)
    (hfind : findRule ae.alertRules zipCode =
      some (mkAlertRule zipCode city alertTemp alertWind alertHumidity))
    (hlt : w.main.temp < alertTemp) :
    (∀ a ∈ ae.EvaluateCurrentWeather w zipCode now,
        a.type ≠ "temperature" ∧ a.type ≠ "high_temperature")
    ∧ (w.main.temp ≤ alertTemp - 5 →
        mkLowTempAlert w (mkAlertRule zipCode city alertTemp alertWind alertHumidity) now
          ∈ ae.EvaluateCurrentWeather w zipCode now) := by
  have hca : ¬ w.main.temp ≥
      (mkAlertRule zipCode city alertTemp alertWind alertHumidity).alertTemp := by
    simp only [mkAlertRule, ge_iff_le]
    exact not_le.mpr hlt
  have hha : ¬ w.main.temp ≥
      (mkAlertRule zipCode city alertTemp alertWind alertHumidity).highTempAlert := by
    simp only [mkAlertRule, ge_iff_le, not_le]
    linarith
  constructor
  · intro a ha
    rw [evaluateCurrentWeather_char ae w zipCode _ now hfind] at ha
    simp only [if_neg hca, if_neg hha, List.nil_append, List.mem_append] at ha
    rcases ha with h | h | h | h | h
    · have hx := mem_ite_singleton h
      subst hx
      exact ⟨by simp [mkLowTempAlert], by simp [mkLowTempAlert]⟩
    · have hx := mem_ite_singleton h
      subst hx
      exact ⟨by simp [mkHighWindAlert], by simp [mkHighWindAlert]⟩
    · have hx := mem_ite_singleton h
      subst hx
      exact ⟨by simp [mkHighHumidityAlert], by simp [mkHighHumidityAlert]⟩
    · have hx := mem_ite_singleton h
      subst hx
      exact ⟨by simp [mkLowPressureAlert], by simp [mkLowPressureAlert]⟩
    · have hx := mem_conditionAlerts_type h
      rw [hx]
      exact ⟨by decide, by decide⟩
  · intro hle
    rw [evaluateCurrentWeather_char ae w zipCode _ now hfind]
    have hl : w.main.temp ≤
        (mkAlertRule zipCode city alertTemp alertWind alertHumidity).lowTempAlert := by
      simpa only [mkAlertRule] using hle
    simp only [if_neg hca, if_neg hha, if_pos hl, List.nil_append]
    simp

/-- Witness for the amended C1 at the cold sample. -/
theorem below_custom_threshold_alerts_witness :
    mkLowTempAlert coldSample ruleFixture 0 ∈
      evalFixture.EvaluateCurrentWeather coldSample "12601" 0 :=
  (below_custom_threshold_alerts evalFixture "12601" "Poughkeepsie" 10 15 85
      coldSample 0 rfl (by norm_num [coldSample])).2 (by norm_num [coldSample])

/-- Claim C2 counterexample: the stormy end-to-end scenario produces five
alerts (custom-threshold, high-temperature, high-wind, high-humidity and a
critical condition alert), not four as claimed. -/
theorem storm_scenario_counterexample :
    ((evalFixture.EvaluateCurrentWeather stormSample "12601" 0).map
      (fun a => (a.type, a.severity)) =
      [("temperature", "warning"), ("high_temperature", "critical"),
       ("high_wind", "warning"), ("high_humidity", "warning"),
       ("weather_condition", "critical")])
    ∧ (evalFixture.EvaluateCurrentWeather stormSample "12601" 0).length ≠ 4 := by
  have h : (evalFixture.EvaluateCurrentWeather stormSample "12601" 0).map
      (fun a => (a.type, a.severity)) =
      [("temperature", "warning"), ("high_temperature", "critical"),
       ("high_wind", "warning"), ("high_humidity", "warning"),
       ("weather_condition", "critical")] := by
    norm_num [evalFixture, NewAlertEvaluator, AlertEvaluator.AddAlertRule,
      AlertEvaluator.EvaluateCurrentWeather, findRule, mkAlertRule, stormSample,
      evaluateTemperatureAlerts, evaluateWindAlerts, evaluateHumidityAlerts,
      evaluatePressureAlerts, evaluateWeatherConditionAlerts, severeConditionSeverity,
      mkCustomTempAlert, mkHighTempAlert, mkHighWindAlert, mkHighHumidityAlert,
      mkConditionAlert]
  refine ⟨h, ?_⟩
  have hlen := congrArg List.length h
  simp only [List.length_map] at hlen
  rw [hlen]
  decide

/-- Claim C2 as amended: for the rule of the scenario and any sample with
temperature 21, wind 20, humidity 90, pressure above 1000 and first
condition Thunderstorm, evaluation yields exactly five alerts in order:
custom-threshold, high-temperature, high-wind, high-humidity and a critical
condition alert, and no pressure alert. -/
theorem storm_scenario_alerts (p : Int) (hp : 1000 < p)
    (city desc icon : String) (cid : Int) (fl tmin tmax : ℚ) (deg now : Int) :
    (((NewAlertEvaluator.AddAlertRule "12601" city 10 15 85).EvaluateCurrentWeather
        { weather := [{ id := cid, main := "Thunderstorm"
                        description := desc, icon := icon }]
          main := { temp := 21, feelsLike := fl, tempMin := tmin, tempMax := tmax
                    pressure := p, humidity := 90 }
          wind := { speed := 20, deg := deg } } "12601" now).map
      (fun a => (a.type, a.severity)) =
      [("temperature", "warning"), ("high_temperature", "critical"),
       ("high_wind", "warning"), ("high_humidity", "warning"),
       ("weather_condition", "critical")]) := by
  have hfind : findRule
      (NewAlertEvaluator.AddAlertRule "12601" city 10 15 85).alertRules "12601" =
      some (mkAlertRule "12601" city 10 15 85) := rfl
  rw [evaluateCurrentWeather_char _ _ _ _ _ hfind]
  norm_num [mkAlertRule, hp.not_le, evaluateWeatherConditionAlerts,
    severeConditionSeverity, mkCustomTempAlert, mkHighTempAlert,
    mkHighWindAlert, mkHighHumidityAlert, mkConditionAlert]

/-- Witness for the amended C2 at pressure 1005. -/
theorem storm_scenario_alerts_witness :
    (((NewAlertEvaluator.AddAlertRule "12601" "Poughkeepsie" 10 15 85).EvaluateCurrentWeather
        { weather := [{ id := 200, main := "Thunderstorm"
                        description := "thunderstorm with rain", icon := "11d" }]
          main := { temp := 21, feelsLike := 22, tempMin := 20, tempMax := 23
                    pressure := 1005, humidity := 90 }
          wind := { speed := 20, deg := 180 } } "12601" 0).map
      (fun a => (a.type, a.severity)) =
      [("temperature", "warning"), ("high_temperature", "critical"),
       ("high_wind", "warning"), ("high_humidity", "warning"),
       ("weather_condition", "critical")]) :=
  storm_scenario_alerts 1005 (by decide) "Poughkeepsie" "thunderstorm with rain"
    "11d" 200 22 20 23 180 0

/-- Claim C3 counterexample: two runs on the identical sample and rule but
at different clock readings yield alert sequences that differ in the
generation timestamp field, so the sequences are not identical in every
field. -/
theorem clock_changes_alert_sequence :
    ((evalFixture.EvaluateCurrentWeather boundarySample "12601" 0).map
      WeatherAlert.timestamp = [0])
    ∧ ((evalFixture.EvaluateCurrentWeather boundarySample "12601" 1).map
      WeatherAlert.timestamp = [1])
    ∧ evalFixture.EvaluateCurrentWeather boundarySample "12601" 0 ≠
        evalFixture.EvaluateCurrentWeather boundarySample "12601" 1 := by
  have h0 : (evalFixture.EvaluateCurrentWeather boundarySample "12601" 0).map
      WeatherAlert.timestamp = [0] := by
    norm_num [evalFixture, NewAlertEvaluator, AlertEvaluator.AddAlertRule,
      AlertEvaluator.EvaluateCurrentWeather, findRule, mkAlertRule, boundarySample,
      evaluateTemperatureAlerts, evaluateWindAlerts, evaluateHumidityAlerts,
      evaluatePressureAlerts, evaluateWeatherConditionAlerts, mkCustomTempAlert]
  have h1 : (evalFixture.EvaluateCurrentWeather boundarySample "12601" 1).map
      WeatherAlert.timestamp = [1] := by
    norm_num [evalFixture, NewAlertEvaluator, AlertEvaluator.AddAlertRule,
      AlertEvaluator.EvaluateCurrentWeather, findRule, mkAlertRule, boundarySample,
      evaluateTemperatureAlerts, evaluateWindAlerts, evaluateHumidityAlerts,
      evaluatePressureAlerts, evaluateWeatherConditionAlerts, mkCustomTempAlert]
  refine ⟨h0, h1, fun he => ?_⟩
  rw [he] at h0
  rw [h0] at h1
  simp at h1

/-- Claim C3 as amended: evaluation is deterministic given the clock
reading.  All fields except the generation timestamp are a function of the
sample and the rule alone, and every timestamp equals the clock reading of
the run; with equal clock readings the outputs are fully identical. -/
theorem evaluate_deterministic_given_clock (ae : AlertEvaluator)
    (w : OpenWeatherResponse) (zipCode : String) (n1 n2 : Int) :
    (ae.EvaluateCurrentWeather w zipCode n1).map (retime 0) =
      (ae.EvaluateCurrentWeather w zipCode n2).map (retime 0)
    ∧ (ae.EvaluateCurrentWeather w zipCode n1).map WeatherAlert.timestamp =
        List.replicate (ae.EvaluateCurrentWeather w zipCode n1).length n1 := by
  constructor
  · rw [evaluateCurrentWeather_retime ae w zipCode n1 n2, List.map_map]
    congr 1
  · conv_lhs => rw [evaluateCurrentWeather_retime ae w zipCode n1 n1]
    exact map_retime_timestamp (ae.EvaluateCurrentWeather w zipCode n1) n1

/-- A daily summary payload fixture. -/
def dailyFixture : DailyWeatherData :=
  { day := 1, date := "2024-01-01", tempMin := 2, tempMax := 12, tempAvg := 7
    humidity := 80, windSpeed := 3, description := "scattered clouds"
    icon := "03d" }

/-- A well-formed daily envelope fixture. -/
def dailyMessage : WeatherMessage :=
  { timestamp := 0, zipCode := "12601", city := "Poughkeepsie", country := "US"
    current := none, forecast := none, hourly := none
    daily := some dailyFixture, messageType := "daily" }

/-- An envelope with an unrecognized message_type tag. -/
def bogusMessage : WeatherMessage :=
  { timestamp := 0, zipCode := "12601", city := "Poughkeepsie", country := "US"
    current := none, forecast := none, hourly := none, daily := none
    messageType := "bogus" }

/-- Claim C6: an envelope that fails decoding (malformed JSON or an
unrecognized message_type tag) is a processing error with no metric update
and no alert, and consumption of the remaining stream is exactly the same
as if the bad envelope had not been received. -/
theorem decode_failure_isolated (ae : AlertEvaluator) (now : Int)
    (rest : List (Except String (Option WeatherMessage))) (m : WeatherMessage)
    (hm1 : m.messageType ≠ "current") (hm2 : m.messageType ≠ "forecast")
    (hm3 : m.messageType ≠ "hourly") (hm4 : m.messageType ≠ "daily") :
    processMessage ae none now = .error "failed to unmarshal message"
    ∧ processMessage ae (some m) now =
        .error ("unknown message type: " ++ m.messageType)
    ∧ StartConsuming ae (.ok none :: rest) now = StartConsuming ae rest now
    ∧ StartConsuming ae (.ok (some m) :: rest) now = StartConsuming ae rest now := by
  have h2 : processMessage ae (some m) now =
      .error ("unknown message type: " ++ m.messageType) := by
    simp [processMessage, hm1, hm2, hm3, hm4]
  refine ⟨rfl, h2, rfl, ?_⟩
  simp [StartConsuming, h2, effectsOfResult]

/-- Witness for C6: a bogus-tagged envelope is skipped and the following
daily envelope is still processed. -/
theorem decode_failure_isolated_witness :
    processMessage evalFixture (some bogusMessage) 0 =
      .error ("unknown message type: " ++ bogusMessage.messageType)
    ∧ StartConsuming evalFixture
        [.ok (some bogusMessage), .ok (some dailyMessage)] 0 =
      StartConsuming evalFixture [.ok (some dailyMessage)] 0 := by
  have h := decode_failure_isolated evalFixture 0 [.ok (some dailyMessage)]
    bogusMessage (by decide) (by decide) (by decide) (by decide)
  exact ⟨h.2.1, h.2.2.2⟩

/-- Claim C7 counterexample: after a receive error the dispatcher keeps
consuming — the daily envelope that follows the transport error is still
processed and its metric update is emitted, so the loop does not
terminate on transport errors. -/
theorem consumption_survives_receive_error :
    StartConsuming evalFixture
      [.error "kafka: connection refused", .ok (some dailyMessage)] 0 =
      [MetricEffect.updateCurrent "Poughkeepsie" 7 80 3 (101325 / 100)]
    ∧ StartConsuming evalFixture
        [.error "kafka: connection refused", .ok (some dailyMessage)] 0 ≠ [] := by
  have h1 : processMessage evalFixture (some dailyMessage) 0 =
      Except.ok [MetricEffect.updateCurrent "Poughkeepsie" 7 80 3 (101325 / 100)] := by
    simp [processMessage, processDailyWeather, dailyMessage, dailyFixture]
  have h : StartConsuming evalFixture
      [.error "kafka: connection refused", .ok (some dailyMessage)] 0 =
      [MetricEffect.updateCurrent "Poughkeepsie" 7 80 3 (101325 / 100)] := by
    simp [StartConsuming, h1, effectsOfResult]
  refine ⟨h, ?_⟩
  rw [h]
  simp

/-- Claim C7 as amended: a receive error anywhere in the stream is logged
and skipped; consumption continues with the next receive, and the emitted
metric updates are exactly those of the stream without the error. -/
theorem receive_errors_skipped (ae : AlertEvaluator) (now : Int) (e : String)
    (s1 s2 : List (Except String (Option WeatherMessage))) :
    StartConsuming ae (s1 ++ Except.error e :: s2) now =
      StartConsuming ae (s1 ++ s2) now := by
  induction s1 with
  | nil => rfl
  | cons head tail ih =>
    cases head with
    | error e2 => simpa [StartConsuming] using ih
    | ok raw => simp [StartConsuming, ih]

/-- Claim C9: the test-temperature endpoint returns 400 with no effect on a
malformed body or an empty city, returns 200 echoing the applied city and
temperature otherwise, and its only effect is the direct metric write — it
never performs an alert update, whatever the temperature. -/
theorem test_injection_no_evaluation (body : Option TestTemperatureRequest) :
    (body = none → (setTestTemperatureHandler body).status = 400
      ∧ (setTestTemperatureHandler body).effects = [])
    ∧ (∀ req : TestTemperatureRequest, body = some req →
        (req.city = "" → (setTestTemperatureHandler body).status = 400
          ∧ (setTestTemperatureHandler body).effects = [])
        ∧ (req.city ≠ "" →
            (setTestTemperatureHandler body).status = 200
            ∧ (setTestTemperatureHandler body).echoCity = some req.city
            ∧ (setTestTemperatureHandler body).echoTemperature = some req.temperature
            ∧ (setTestTemperatureHandler body).effects =
                [MetricEffect.setTestTemperature req.city req.temperature]))
    ∧ (∀ eff ∈ (setTestTemperatureHandler body).effects,
        eff.isAlertUpdate = false) := by
  refine ⟨?_, ?_, ?_⟩
  · rintro rfl
    exact ⟨rfl, rfl⟩
  · rintro req rfl
    constructor
    · intro hc
      simp [setTestTemperatureHandler, hc]
    · intro hc
      simp [setTestTemperatureHandler, hc]
  · intro eff heff
    cases body with
    | none => simp [setTestTemperatureHandler] at heff
    | some req =>
      by_cases hc : req.city = ""
      · simp [setTestTemperatureHandler, hc] at heff
      · simp [setTestTemperatureHandler, hc] at heff
        rw [heff]
        rfl

/-- Witness for C9: a valid body gives 200 with only the metric write, a
malformed body gives 400. -/
theorem test_injection_no_evaluation_witness :
    (setTestTemperatureHandler (some ⟨"Poughkeepsie", 25⟩)).status = 200
    ∧ (setTestTemperatureHandler (some ⟨"Poughkeepsie", 25⟩)).effects =
        [MetricEffect.setTestTemperature "Poughkeepsie" 25]
    ∧ (setTestTemperatureHandler none).status = 400 := by
  have h := test_injection_no_evaluation (some ⟨"Poughkeepsie", 25⟩)
  have h0 := test_injection_no_evaluation (none : Option TestTemperatureRequest)
  have hx := (h.2.1 ⟨"Poughkeepsie", 25⟩ rfl).2 (by decide)
  exact ⟨hx.1, hx.2.2.2, (h0.1 rfl).1⟩

/-- Round-to-nearest-even lands within half a unit of its argument. -/
theorem abs_roundNearestEven_sub_le (x : ℚ) :
    |(roundNearestEven x : ℚ) - x| ≤ 1 / 2 := by
  have h0 : (⌊x⌋ : ℚ) ≤ x := Int.floor_le x
  have h1 : x < ⌊x⌋ + 1 := Int.lt_floor_add_one x
  unfold roundNearestEven
  split_ifs with ha hb hc
  · rw [abs_le]
    constructor <;> linarith
  · push_cast
    rw [abs_le]
    constructor <;> linarith
  · have hx : x - ⌊x⌋ = 1/2 := le_antisymm (not_lt.mp hb) (not_lt.mp ha)
    rw [abs_le]
    constructor <;> linarith
  · have hx : x - ⌊x⌋ = 1/2 := le_antisymm (not_lt.mp hb) (not_lt.mp ha)
    push_cast
    rw [abs_le]
    constructor <;> linarith

/-- Absolute float32 rounding error for values of magnitude at most 70 (the
range of the derived temperature thresholds for validated configuration
input) is at most half the grid step of the 2^6 binade. -/
theorem abs_fl32_sub_le {q : ℚ} (hq : |q| ≤ 70) : |fl32 q - q| ≤ 1 / 2 ^ 18 := by
  unfold fl32
  split_ifs with h0
  · subst h0
    norm_num
  · have hqpos : (0 : ℚ) < |q| := abs_pos.mpr h0
    set e : ℤ := max (Int.log 2 |q|) (-126) with he
    have hstep : (0 : ℚ) < 2 ^ (e - 23) := by positivity
    have hkey := abs_roundNearestEven_sub_le (q / 2 ^ (e - 23))
    have hmul : |(roundNearestEven (q / 2 ^ (e - 23)) : ℚ) * 2 ^ (e - 23) - q|
        = |(roundNearestEven (q / 2 ^ (e - 23)) : ℚ) - q / 2 ^ (e - 23)| * 2 ^ (e - 23) := by
      have hs : (roundNearestEven (q / 2 ^ (e - 23)) : ℚ) * 2 ^ (e - 23) - q
          = ((roundNearestEven (q / 2 ^ (e - 23)) : ℚ) - q / 2 ^ (e - 23)) * 2 ^ (e - 23) := by
        field_simp
      rw [hs, abs_mul, abs_of_pos hstep]
    have hlog6 : Int.log 2 |q| ≤ 6 := by
      by_contra hcon
      push_neg at hcon
      have h7 : ((2:ℕ):ℚ) ^ (7:ℤ) ≤ |q| :=
        (Int.zpow_le_iff_le_log (by norm_num) hqpos).mpr hcon
      rw [show (((2:ℕ):ℚ)) = (2:ℚ) from by norm_num] at h7
      norm_num at h7
      linarith
    have hstep_le : (2 : ℚ) ^ (e - 23) ≤ 2 ^ (-17 : ℤ) :=
      zpow_le_zpow_right₀ (by norm_num)
        (by have := max_le hlog6 (show (-126:ℤ) ≤ 6 by norm_num); omega)
    calc |(roundNearestEven (q / 2 ^ (e - 23)) : ℚ) * 2 ^ (e - 23) - q|
        = |(roundNearestEven (q / 2 ^ (e - 23)) : ℚ) - q / 2 ^ (e - 23)| * 2 ^ (e - 23) :=
          hmul
      _ ≤ (1 / 2) * 2 ^ (-17 : ℤ) :=
          mul_le_mul hkey hstep_le (le_of_lt hstep) (by norm_num)
      _ ≤ 1 / 2 ^ 18 := by
          rw [show ((2:ℚ) ^ (-17 : ℤ)) = 1 / 2 ^ 17 from by
            rw [zpow_neg]
            norm_num]
          norm_num

/-- Evaluation rule for fl32 once the binade of the argument is known. -/
theorem fl32_eval (q : ℚ) (e : ℤ) (h0 : q ≠ 0) (hlo : (2:ℚ) ^ e ≤ |q|)
    (hhi : |q| < 2 ^ (e + 1)) (hemin : (-126 : ℤ) ≤ e) :
    fl32 q = (roundNearestEven (q / 2 ^ (e - 23)) : ℚ) * 2 ^ (e - 23) := by
  have hqpos : (0:ℚ) < |q| := abs_pos.mpr h0
  have h2c : (((2:ℕ):ℚ)) = (2:ℚ) := by norm_num
  have hle : e ≤ Int.log 2 |q| := by
    rw [← Int.zpow_le_iff_le_log (by norm_num) hqpos, h2c]
    exact hlo
  have hlt : Int.log 2 |q| < e + 1 := by
    rw [← Int.lt_zpow_iff_log_lt (by norm_num) hqpos, h2c]
    exact hhi
  have hlog : Int.log 2 |q| = e := by omega
  unfold fl32
  rw [if_neg h0, hlog, max_eq_left (by omega)]

/-- Round-down case of round-to-nearest-even. -/
theorem roundNearestEven_eq_of_lt (x : ℚ) (n : ℤ) (h1 : (n:ℚ) ≤ x)
    (h2 : x - n < 1/2) : roundNearestEven x = n := by
  have hfl : ⌊x⌋ = n := Int.floor_eq_iff.mpr ⟨h1, by linarith⟩
  unfold roundNearestEven
  rw [hfl, if_pos h2]

/-- Round-up case of round-to-nearest-even. -/
theorem roundNearestEven_eq_of_gt (x : ℚ) (n : ℤ) (h1 : (n:ℚ) ≤ x)
    (h1b : x < n + 1) (h2 : 1/2 < x - n) : roundNearestEven x = n + 1 := by
  have hfl : ⌊x⌋ = n := Int.floor_eq_iff.mpr ⟨h1, h1b⟩
  unfold roundNearestEven
  rw [hfl, if_neg (by linarith), if_pos h2]

/-- Claim C8 counterexample: 268435456 = 2^28 is a finite float32 value
whose unit in the last place is 32, so in float32 both derived sums round
back to the custom value: the high and low thresholds of the constructed
rule equal the custom threshold and the claimed strict chain fails. -/
theorem float32_threshold_chain_counterexample :
    fl32 (268435456 : ℚ) = 268435456
    ∧ (mkAlertRuleFloat32 "12601" "Poughkeepsie" 268435456 15 85).highTempAlert
        = (mkAlertRuleFloat32 "12601" "Poughkeepsie" 268435456 15 85).alertTemp
    ∧ (mkAlertRuleFloat32 "12601" "Poughkeepsie" 268435456 15 85).lowTempAlert
        = (mkAlertRuleFloat32 "12601" "Poughkeepsie" 268435456 15 85).alertTemp
    ∧ ¬ ((mkAlertRuleFloat32 "12601" "Poughkeepsie" 268435456 15 85).highTempAlert >
            (mkAlertRuleFloat32 "12601" "Poughkeepsie" 268435456 15 85).alertTemp
          ∧ (mkAlertRuleFloat32 "12601" "Poughkeepsie" 268435456 15 85).alertTemp >
            (mkAlertRuleFloat32 "12601" "Poughkeepsie" 268435456 15 85).lowTempAlert) := by
  have habs1 : |(268435456:ℚ)| = 268435456 := abs_of_nonneg (by norm_num)
  have habs2 : |(268435456:ℚ) + 10| = 268435466 := by
    rw [show (268435456:ℚ) + 10 = 268435466 from by norm_num]
    exact abs_of_nonneg (by norm_num)
  have habs3 : |(268435456:ℚ) - 5| = 268435451 := by
    rw [show (268435456:ℚ) - 5 = 268435451 from by norm_num]
    exact abs_of_nonneg (by norm_num)
  have h1 : fl32 (268435456 : ℚ) = 268435456 := by
    rw [fl32_eval 268435456 28 (by norm_num) (by rw [habs1]; norm_num)
      (by rw [habs1]; norm_num) (by norm_num)]
    rw [show (2:ℚ) ^ (28 - 23 : ℤ) = 32 from by norm_num,
      show (268435456:ℚ)/32 = 8388608 from by norm_num,
      roundNearestEven_eq_of_lt 8388608 8388608 (by norm_num) (by norm_num)]
    norm_num
  have h2 : fl32 ((268435456:ℚ) + 10) = 268435456 := by
    rw [fl32_eval _ 28 (by norm_num) (by rw [habs2]; norm_num)
      (by rw [habs2]; norm_num) (by norm_num)]
    rw [show (2:ℚ) ^ (28 - 23 : ℤ) = 32 from by norm_num,
      show ((268435456:ℚ) + 10)/32 = 8388608 + 5/16 from by norm_num,
      roundNearestEven_eq_of_lt (8388608 + 5/16) 8388608 (by norm_num) (by norm_num)]
    norm_num
  have h3 : fl32 ((268435456:ℚ) - 5) = 268435456 := by
    rw [fl32_eval _ 27 (by norm_num) (by rw [habs3]; norm_num)
      (by rw [habs3]; norm_num) (by norm_num)]
    rw [show (2:ℚ) ^ (27 - 23 : ℤ) = 16 from by norm_num,
      show ((268435456:ℚ) - 5)/16 = 16777215 + 11/16 from by norm_num,
      roundNearestEven_eq_of_gt (16777215 + 11/16) 16777215 (by norm_num)
        (by norm_num) (by norm_num)]
    norm_num
  refine ⟨h1, ?_, ?_, ?_⟩
  · simp only [mkAlertRuleFloat32]
    exact h2
  · simp only [mkAlertRuleFloat32]
    exact h3
  · simp only [mkAlertRuleFloat32]
    rintro ⟨hgt, -⟩
    rw [h2] at hgt
    exact lt_irrefl _ hgt

/-- Claim C8 as amended: for every custom temperature in the validated
configuration range -50 to 60 (the range the input parser accepts), the
float32-derived thresholds of AddAlertRule satisfy the strict chain high
threshold above custom threshold above low threshold: the rounding error of
each sum is below half a unit of the 2^6 binade, far smaller than the 10
and 5 degree offsets. -/
theorem addAlertRule_threshold_chain_float32 (zipCode city : String)
    (alertTemp alertWind : ℚ) (alertHumidity : Int)
    (hlo : -50 ≤ alertTemp) (hhi : alertTemp ≤ 60) :
    (mkAlertRuleFloat32 zipCode city alertTemp alertWind alertHumidity).highTempAlert >
      (mkAlertRuleFloat32 zipCode city alertTemp alertWind alertHumidity).alertTemp
    ∧ (mkAlertRuleFloat32 zipCode city alertTemp alertWind alertHumidity).alertTemp >
      (mkAlertRuleFloat32 zipCode city alertTemp alertWind alertHumidity).lowTempAlert := by
  simp only [mkAlertRuleFloat32]
  constructor
  · have habs : |alertTemp + 10| ≤ 70 := abs_le.mpr ⟨by linarith, by linarith⟩
    have herr := abs_le.mp (abs_fl32_sub_le habs)
    have hsmall : (1:ℚ)/2^18 < 10 := by norm_num
    have := herr.1
    linarith
  · have habs : |alertTemp - 5| ≤ 70 := abs_le.mpr ⟨by linarith, by linarith⟩
    have herr := abs_le.mp (abs_fl32_sub_le habs)
    have hsmall : (1:ℚ)/2^18 < 5 := by norm_num
    have := herr.2
    linarith

/-- Witness for the amended C8 at custom temperature 10. -/
theorem addAlertRule_threshold_chain_float32_witness :
    (mkAlertRuleFloat32 "12601" "Poughkeepsie" 10 15 85).highTempAlert >
      (mkAlertRuleFloat32 "12601" "Poughkeepsie" 10 15 85).alertTemp
    ∧ (mkAlertRuleFloat32 "12601" "Poughkeepsie" 10 15 85).alertTemp >
      (mkAlertRuleFloat32 "12601" "Poughkeepsie" 10 15 85).lowTempAlert :=
  addAlertRule_threshold_chain_float32 "12601" "Poughkeepsie" 10 15 85
    (by norm_num) (by norm_num)
